import Mathlib

/-!
# Verification of the car-traffic particle simulation core

Shallow embedding of the `CarVisualization` simulation core (streets,
intersections, particle kinematics, routing, population control) and of the
pause path of `CarDecorator.decorate`.

Conventions of the embedding:
* JavaScript `number` values are modelled as exact rationals (`ℚ`); integer
  ids and indices as `ℤ` (with `-1` sentinels as in the source) or `ℕ` where
  the source only ever stores non-negative values.
* The random source (`Math.random()`) is injected as a stream of draws in
  `[0,1)` (a `List ℚ` consumed head-first), following the spec's design note
  "Inject the random source for all weighted decisions".  An exhausted stream
  yields `0`; every theorem below supplies enough draws explicitly.
* JavaScript array accesses that the source guards (`if (!curStreet) return`)
  are modelled with `Option` matches returning normally; unguarded accesses
  whose failure would throw a `TypeError` (dereferencing `undefined`)
  propagate `none` ("fault").
* `while` loops whose bound is not structural carry either an explicit
  termination measure or, for `moveCar`'s outer loop (whose termination
  depends on timing arithmetic), an explicit fuel parameter; exhausted fuel
  also yields `none`, and theorems about faults are stated for every fuel so
  that a fault cannot be confused with fuel exhaustion.
* Floating-point square roots (vector normalization, one dead branch of
  `emitCar`) are modelled by the exact rational square root where it exists;
  all geometries used in the theorems below have exactly representable
  magnitudes.
-/

namespace CarSim

/-- Generate integer in `[min, max]`: `Math.floor(Math.random() * (max - min + 1)) + min`
with the draw `u` standing for `Math.random()`. -/
def randomInteger (lo hi : ℤ) (u : ℚ) : ℤ :=
  ⌊u * ((hi : ℚ) - (lo : ℚ) + 1)⌋ + lo

/-- Generate random floating-point number in `[min, max)`:
`Math.random() * (max - min) + min`. -/
def randomFloat (lo hi : ℚ) (u : ℚ) : ℚ :=
  u * (hi - lo) + lo

/-- Consume one draw from the injected random stream. -/
def draw : List ℚ → ℚ × List ℚ
  | [] => (0, [])
  | u :: rest => (u, rest)

/-- JavaScript array indexing by a possibly negative number:
`l[i]` is `undefined` (here `none`) outside `[0, length)`. -/
def atZ {α : Type} (l : List α) (i : ℤ) : Option α :=
  if 0 ≤ i then l.get? i.toNat else none

/-- Lookup in a JavaScript `Map` keyed by integers (`Map.get`). -/
def lookupZ {α : Type} (m : List (ℤ × α)) (k : ℤ) : Option α :=
  match m with
  | [] => none
  | (k', v) :: rest => if k = k' then some v else lookupZ rest k

/-- Exact rational square root, when it exists.  The source computes a
floating-point square root; the embedding is exact and returns `none` for
magnitudes that are not rational squares (no theorem below depends on that
case). -/
def ratSqrt (q : ℚ) : Option ℚ :=
  let n := Nat.sqrt q.num.toNat
  let d := Nat.sqrt q.den
  if 0 ≤ q.num ∧ (n * n : ℤ) = q.num ∧ d * d = q.den then some ((n : ℚ) / (d : ℚ))
  else none

/-- A 3d point with rational coordinates. -/
structure Point3 where
  x : ℚ
  y : ℚ
  z : ℚ
deriving DecidableEq, Repr

/-- A 3x3 rotation matrix, row-major (`Matrix3d.createRowValues`). -/
structure Matrix3 where
  m00 : ℚ
  m01 : ℚ
  m02 : ℚ
  m10 : ℚ
  m11 : ℚ
  m12 : ℚ
  m20 : ℚ
  m21 : ℚ
  m22 : ℚ
deriving DecidableEq, Repr

/-- Normalize a 2d vector (`Vector2d.normalize`): `undefined` (here `none`)
for the zero vector; also `none` when the magnitude is not an exact rational
(see `ratSqrt`). -/
def normalize2 (v : ℚ × ℚ) : Option (ℚ × ℚ) :=
  match ratSqrt (v.1 * v.1 + v.2 * v.2) with
  | none => none
  | some m => if m = 0 then none else some (v.1 / m, v.2 / m)

/-- A street of the road network (`Street` of the external network module,
as used by the simulation core): an ordered polyline, the parallel
per-segment length table, the total length, the speed limit, and the id of
the intersection at the street's terminal end (negative sentinel = network
edge). -/
structure Street where
  points : List Point3
  distance : List ℚ
  totalDistance : ℚ
  speed : ℚ
  inTo : ℤ
deriving DecidableEq, Repr

/-- An intersection (`Intersection` of the external network module, as used
by the simulation core): outbound street ids, cumulative routing
probabilities keyed by inbound street id, synthetic connector paths keyed by
path id, and the stop policy.  `findPath` is the intersection's path lookup.
Modelled from the spec: the implementation of
`findPath(inStreet, outStreet) → path id or not-found` lives in the external
network module and is not part of the sources; it is carried here as a field
so concrete instances can supply the spec's behaviour (a path id usable with
`inOutPaths`, or `-1` when no path joins the pair). -/
structure Intersection where
  streetsOut : List ℤ
  inOutProbabilities : List (ℤ × List ℚ)
  inOutPaths : List (ℤ × Street)
  stop : Bool
  findPath : ℤ → ℤ → ℤ

/-- The mutable per-particle state (`CarParticle`). -/
structure CarParticle where
  x : ℚ
  y : ℚ
  z : ℚ
  speed : ℚ
  street : ℤ
  segment : ℕ
  segmentDist : ℚ
  waiting : ℚ
  intersection : ℤ
  type : ℤ
  direction : Option (ℚ × ℚ)
  rotationMatrix : Option Matrix3
deriving DecidableEq, Repr

/-- Type to represent different levels of density. -/
inductive Density where
  | Low
  | Medium
  | High
deriving DecidableEq, Repr

/-- The simulation state (`CarVisualization`'s fields). -/
structure CarVisualization where
  carParticles : List CarParticle
  streets : List Street
  intersections : List (ℤ × Intersection)
  startStreetIndices : List ℤ
  startStreetProbabilities : List ℚ
  numCars : ℚ
  packingRatio : ℚ
  maxCars : ℚ
  carSize : ℚ × ℚ
  numTypes : ℤ

/-- Constant `_carSpacingDefault = 1.25`. -/
def carSpacingDefault : ℚ := 5 / 4

/-- Constant `_accelerationDefault = 10`. -/
def accelerationDefault : ℚ := 10

/-- Constant `_waitTime = 1`. -/
def waitTime : ℚ := 1

/-- Modelled from the spec: the default car sprite width `carSizeDefaultX`
is a constant of the external network module whose value the spec does not
give; it only scales `setSize` multiplicatively and is fixed as `1` here. -/
def carSizeDefaultX : ℚ := 1

/-- Modelled from the spec: the default car sprite length `carSizeDefaultY`,
a constant of the external network module whose value the spec does not
give; it only scales `setSize` multiplicatively and is fixed as `1` here. -/
def carSizeDefaultY : ℚ := 1

/-- JavaScript array index into the street table: `this._streets[i]`. -/
def streetAt (streets : List Street) (i : ℤ) : Option Street :=
  atZ streets i

/-- Sets the x, y and z position of a car based on the car's current segment
and the street it is on (`setPositionOnStreet`): linear interpolation between
the segment's endpoints by `segmentDist / distance[segment]`. -/
def setPositionOnStreet (car : CarParticle) (street : Street) : CarParticle :=
  let ratio := car.segmentDist / street.distance.getD car.segment 0
  let b := street.points.getD car.segment ⟨0, 0, 0⟩
  let a := street.points.getD (car.segment + 1) ⟨0, 0, 0⟩
  { car with
    x := b.x + ratio * (a.x - b.x)
    y := b.y + ratio * (a.y - b.y)
    z := b.z + ratio * (a.z - b.z) }

/-- Sets the direction vector of a car based on the car's current segment and
the street it is on (`setDirectionOnStreet`); the render-plane convention
negates the y component. -/
def setDirectionOnStreet (car : CarParticle) (street : Street) : CarParticle :=
  let n := street.points.length
  let dir : Point3 :=
    if n - 1 ≤ car.segment then
      let pLast := street.points.getD (n - 1) ⟨0, 0, 0⟩
      let pPrev := street.points.getD (n - 2) ⟨0, 0, 0⟩
      ⟨pLast.x - pPrev.x, pLast.y - pPrev.y, pLast.z - pPrev.z⟩
    else
      let pa := street.points.getD (car.segment + 1) ⟨0, 0, 0⟩
      let pb := street.points.getD car.segment ⟨0, 0, 0⟩
      ⟨pa.x - pb.x, pa.y - pb.y, pa.z - pb.z⟩
  { car with direction := some (dir.x, -dir.y) }

/-- Sets the rotation of a given car particle (`setRotationMatrix`):
normalize the heading into a 2d basis; no-op when the heading is absent or
not normalizable. -/
def setRotationMatrix (car : CarParticle) : CarParticle :=
  match car.direction with
  | none => car
  | some v =>
    match normalize2 v with
    | none => car
    | some d =>
      { car with rotationMatrix := some ⟨d.1, d.2, 0, -d.2, d.1, 0, 0, 0, 0⟩ }

/-- The `do { segmentDist -= distance[segment]; segment++ } while (...)`
tail of `moveCarOnStreet`, from its re-check point: keep consuming segments
while `segment < distance.length && segmentDist >= distance[segment]`.
The loop advances `segment` towards `distance.length`, so it runs at most
`distance.length - segment` times; that bound is passed as a structural
counter (the guard is still re-checked every round, so any sufficient
counter yields the loop's exit state). -/
def advanceGo (street : Street) : ℕ → CarParticle → CarParticle
  | 0, car => car
  | k + 1, car =>
    if car.segment < street.distance.length ∧
        street.distance.getD car.segment 0 ≤ car.segmentDist then
      advanceGo street k
        { car with
          segmentDist := car.segmentDist - street.distance.getD car.segment 0
          segment := car.segment + 1 }
    else car

/-- The segment-consuming loop of `moveCarOnStreet`, run to completion. -/
def advanceWhile (street : Street) (car : CarParticle) : CarParticle :=
  advanceGo street (street.distance.length - car.segment) car

/-- The speed-update block at the head of `moveCarOnStreet`: accelerate or
decelerate towards the street's speed limit at the fixed rate, clamped to
never overshoot. -/
def speedToward (speed limit elapsedSeconds : ℚ) : ℚ :=
  if speed < limit then
    let s := speed + accelerationDefault * elapsedSeconds
    if limit < s then limit else s
  else if limit < speed then
    let s := speed - accelerationDefault * elapsedSeconds
    if s < limit then limit else s
  else speed

/-- Returns the remaining time a car has to move after moving down a road's
segments; returns `-1` if the car is done moving (`moveCarOnStreet`). -/
def moveCarOnStreet (car : CarParticle) (street : Street) (elapsedSeconds : ℚ) :
    CarParticle × ℚ :=
  let s1 := speedToward car.speed street.speed elapsedSeconds
  let car1 := { car with speed := s1, segmentDist := car.segmentDist + elapsedSeconds * s1 }
  if car1.segmentDist < street.distance.getD car1.segment 0 then
    (setPositionOnStreet car1 street, -1)
  else
    let car2 := advanceWhile street
      { car1 with
        segmentDist := car1.segmentDist - street.distance.getD car1.segment 0
        segment := car1.segment + 1 }
    if car2.segment < street.distance.length then
      (setDirectionOnStreet (setPositionOnStreet car2 street) street, -1)
    else
      let p := street.points.getD car2.segment ⟨0, 0, 0⟩
      let timeLeft := car2.segmentDist / car2.speed
      let car3 := { car2 with
        x := p.x, y := p.y, z := p.z
        segmentDist := street.distance.getD (car2.segment - 1) 0 }
      (setDirectionOnStreet car3 street, timeLeft)

/-- Walk the cumulative-probability sequence in parallel with the outbound
street ids and return the first outbound id whose probability strictly
exceeds the draw, `-1` when none qualifies (the loop of `getNextStreet`).
An outbound entry missing at a qualifying index is modelled as the
not-found sentinel (the lists are aligned in every use below). -/
def selectOut (r : ℚ) : List ℚ → List ℤ → ℤ
  | [], _ => -1
  | p :: ps, [] => if r < p then -1 else selectOut r ps []
  | p :: ps, o :: os => if r < p then o else selectOut r ps os

/-- Uses probability to pick the next street to travel on (`getNextStreet`):
cumulative probabilities are keyed by the inbound street; returns `-1` when
the key is absent, and otherwise draws `r ∈ [0,1)` and selects. -/
def getNextStreet (inter : Intersection) (streetIn : ℤ) (draws : List ℚ) :
    ℤ × List ℚ :=
  match lookupZ inter.inOutProbabilities streetIn with
  | none => (-1, draws)
  | some probabilities =>
    let (r, d1) := draw draws
    (selectOut r probabilities inter.streetsOut, d1)

/-- Places a car on a random start street with a random texture
(`restartCar`): uniform-random pick from `startStreetIndices`, position at
that street's first point, speed 0, all routing state reset, fresh random
type, heading recomputed.  Faults (`none`) when the picked index or street
is undefined or the street has no points, as the source would dereference
`undefined`. -/
def restartCar (st : CarVisualization) (car : CarParticle) (draws : List ℚ) :
    Option (CarParticle × List ℚ) :=
  let (u1, d1) := draw draws
  match atZ st.startStreetIndices
      (randomInteger 0 (st.startStreetIndices.length - 1) u1) with
  | none => none
  | some street =>
    match streetAt st.streets street with
    | none => none
    | some s =>
      match s.points with
      | [] => none
      | p0 :: _ =>
        let (u2, d2) := draw d1
        let car' := { car with
          x := p0.x, y := p0.y, z := p0.z
          speed := 0, street := street, segment := 0, segmentDist := 0
          waiting := 0, intersection := -1
          type := randomInteger 0 (st.numTypes - 1) u2 }
        some (setDirectionOnStreet car' s, d2)

/-- The transition taken when a particle exhausts an intersection's synthetic
path (the `car.intersection >= 0` arm of `moveCar`):
`car.street = intersections.get(car.intersection)?.inOutPaths[car.street].inTo || car.street`
— note the JavaScript `||`, under which an `inTo` of `0` keeps the old
street — then segment/segmentDist/intersection are reset and the heading is
recomputed from `streets[car.street]` (faulting when that index is
undefined, as the source would). -/
def intersectionToStreet (st : CarVisualization) (car : CarParticle) :
    Option CarParticle :=
  match lookupZ st.intersections car.intersection with
  | none =>
    let car' := { car with segment := 0, segmentDist := 0, intersection := -1 }
    (streetAt st.streets car'.street).map (setDirectionOnStreet car')
  | some inter =>
    match lookupZ inter.inOutPaths car.street with
    | none => none
    | some path =>
      let newStreet := if path.inTo = 0 then car.street else path.inTo
      let car' := { car with
        street := newStreet, segment := 0, segmentDist := 0, intersection := -1 }
      (streetAt st.streets car'.street).map (setDirectionOnStreet car')

/-- One round of `moveCar`'s `while (timeLeft > 0)` loop, with explicit fuel.
The loop state carries both `timeLeft` (movement budget) and
`elapsedSeconds` (the source variable the waiting arm subtracts from). -/
def moveCarLoop (st : CarVisualization) :
    ℕ → CarParticle → ℚ → ℚ → List ℚ → Option (CarParticle × List ℚ)
  | 0, _, _, _, _ => none
  | fuel + 1, car0, timeLeft0, elapsed0, draws0 =>
    if timeLeft0 ≤ 0 then some (car0, draws0)
    else
      let wres : (CarParticle × List ℚ) ⊕ (CarParticle × ℚ) :=
        if 0 < car0.waiting then
          if elapsed0 ≤ car0.waiting then
            Sum.inl ({ car0 with waiting := car0.waiting - elapsed0 }, draws0)
          else Sum.inr ({ car0 with waiting := 0 }, elapsed0 - car0.waiting)
        else Sum.inr (car0, elapsed0)
      match wres with
      | Sum.inl r => some r
      | Sum.inr (car1, elapsed1) =>
        let curStreet? : Option Street :=
          if car1.intersection = -1 then streetAt st.streets car1.street
          else (lookupZ st.intersections car1.intersection).bind
            (fun i => lookupZ i.inOutPaths car1.street)
        match curStreet? with
        | none => some (car1, draws0)
        | some curStreet =>
          let car2 := if car1.speed = 0 then setDirectionOnStreet car1 curStreet else car1
          let m := moveCarOnStreet car2 curStreet timeLeft0
          let car3 := m.1
          let timeLeft := m.2
          if timeLeft < 0 then some (car3, draws0)
          else if 0 ≤ car3.intersection then
            match intersectionToStreet st car3 with
            | none => none
            | some car4 => moveCarLoop st fuel car4 timeLeft elapsed1 draws0
          else
            match streetAt st.streets car3.street with
            | none => none
            | some theStreet =>
              let curIntersectionId := theStreet.inTo
              let curIntersection? := lookupZ st.intersections curIntersectionId
              let nOut : ℕ :=
                match curIntersection? with
                | some i => i.streetsOut.length
                | none => 0
              if curIntersectionId < 0 ∨ nOut = 0 then
                restartCar st car3 draws0
              else
                match curIntersection? with
                | none => moveCarLoop st fuel car3 timeLeft elapsed1 draws0
                | some curInter =>
                  let g := getNextStreet curInter car3.street draws0
                  let outStreetIndex := g.1
                  let draws1 := g.2
                  let car4 := { car3 with
                    street := curInter.findPath car3.street outStreetIndex
                    segment := 0, segmentDist := 0 }
                  if car4.street = -1 then
                    let car5 := { car4 with street := outStreetIndex }
                    match streetAt st.streets car5.street with
                    | none => none
                    | some s =>
                      moveCarLoop st fuel (setDirectionOnStreet car5 s)
                        timeLeft elapsed1 draws1
                  else
                    let car5 := { car4 with intersection := curIntersectionId }
                    if curInter.stop then
                      let car6 := { car5 with speed := 0 }
                      if timeLeft < waitTime then
                        some ({ car6 with waiting := waitTime - timeLeft }, draws1)
                      else moveCarLoop st fuel car6 (timeLeft - waitTime) elapsed1 draws1
                    else
                      match lookupZ curInter.inOutPaths car5.street with
                      | none => none
                      | some p =>
                        moveCarLoop st fuel (setDirectionOnStreet car5 p)
                          timeLeft elapsed1 draws1

/-- Update a given car's speed and position (`moveCar`). -/
def moveCar (st : CarVisualization) (fuel : ℕ) (car : CarParticle)
    (elapsedSeconds : ℚ) (draws : List ℚ) : Option (CarParticle × List ℚ) :=
  moveCarLoop st fuel car elapsedSeconds elapsedSeconds draws

/-- Squared euclidean distance between two points (for the one segment-length
recomputation in `emitCar`, which the source derives via `Point3d.distance`). -/
def dist2 (a b : Point3) : ℚ :=
  (a.x - b.x) * (a.x - b.x) + (a.y - b.y) * (a.y - b.y) + (a.z - b.z) * (a.z - b.z)

/-- The overwrite loop of `emitCar`'s random-street branch:
`for p in 0..probabilities.length: if probabilities[p] > r then street := indices[p]`
— the LAST qualifying entry wins, not the first.  `cur = none` stands for a
JavaScript `undefined` street (an out-of-range indices entry keeps the
previous value; the lists are aligned in every use below). -/
def lastExceedingAux (indices : List ℤ) (r : ℚ) :
    List ℚ → ℕ → Option ℤ → Option ℤ
  | [], _, cur => cur
  | p :: ps, i, cur =>
    lastExceedingAux indices r ps (i + 1)
      (if r < p then atZ indices i else cur)

/-- Returns a new car particle at a distance on a street; if not provided,
street, segment and distance are randomized (`emitCar`).  Faults (`none`)
whenever the source would dereference `undefined` (invalid street id,
out-of-range point index). -/
def emitCar (st : CarVisualization) (street? : Option ℤ) (segment? : Option ℤ)
    (distance? : Option ℚ) (draws : List ℚ) : Option (CarParticle × List ℚ) :=
  let pick : Option ℤ × List ℚ :=
    match street? with
    | some s => (some s, draws)
    | none =>
      let (u1, d1) := draw draws
      let init := atZ st.startStreetIndices
        (randomInteger 0 (st.startStreetIndices.length - 1) u1)
      let (u2, d2) := draw d1
      (lastExceedingAux st.startStreetIndices u2 st.startStreetProbabilities 0 init, d2)
  match pick with
  | (none, _) => none
  | (some street, d2) =>
    match streetAt st.streets street with
    | none => none
    | some str =>
      let seg : ℤ := segment?.getD 0
      match atZ str.points seg with
      | none => none
      | some p0 =>
        let (u3, d3) := draw d2
        let car : CarParticle := {
          x := p0.x, y := p0.y, z := p0.z
          speed := 0, street := street, segment := seg.toNat, segmentDist := 0
          waiting := 0, intersection := -1
          type := randomInteger 0 (st.numTypes - 1) u3
          direction := none, rotationMatrix := none }
        let car2? : Option CarParticle :=
          match segment? with
          | none => some car
          | some sgiven =>
            if (str.distance.length : ℤ) ≤ sgiven then
              match atZ str.points (sgiven + 1), atZ str.points sgiven with
              | some pa, some pb =>
                some { car with
                  segment := str.distance.length - 1
                  x := pa.x, y := pa.y, z := pa.z
                  segmentDist := (ratSqrt (dist2 pa pb)).getD 0 }
              | _, _ => none
            else
              match distance? with
              | none => some car
              | some dval => some (setPositionOnStreet { car with segmentDist := dval } str)
        match car2? with
        | none => none
        | some car2 => some (setDirectionOnStreet car2 str, d3)

/-- The `while (numCars > 0)` spawn loop of `updateParticles`: pick a random
street, segment and offset, emit a car at it, append.  Returns the grown
list, the final loop counter (which the shrink loop continues from) and the
remaining draws.  The counter decreases by exactly 1 per round, so the loop
runs `⌈numCars⌉` times; that bound is passed as a structural counter (the
`0 < numCars` guard is still re-checked every round, so any sufficient
counter yields the loop's exit state). -/
def spawnGo (st : CarVisualization) :
    ℕ → ℚ → List CarParticle → List ℚ → Option (List CarParticle × ℚ × List ℚ)
  | 0, numCars, l, draws => some (l, numCars, draws)
  | k + 1, numCars, l, draws =>
    if 0 < numCars then
      let u1 := (draw draws).1
      let s := randomInteger 0 (st.streets.length - 1) u1
      match streetAt st.streets s with
      | none => none
      | some str =>
        let d1 := (draw draws).2
        let u2 := (draw d1).1
        let seg := randomInteger 0 (str.distance.length - 1) u2
        let d2 := (draw d1).2
        let u3 := (draw d2).1
        let d3 := (draw d2).2
        let dist := randomFloat 0 (str.distance.getD seg.toNat 0) u3
        match emitCar st (some s) (some seg) (some dist) d3 with
        | none => none
        | some (car, d4) => spawnGo st k (numCars - 1) (l ++ [car]) d4
    else some (l, numCars, draws)

/-- The spawn loop of `updateParticles`, run to completion. -/
def spawnLoop (st : CarVisualization) (numCars : ℚ) (l : List CarParticle)
    (draws : List ℚ) : Option (List CarParticle × ℚ × List ℚ) :=
  spawnGo st (⌈numCars⌉).toNat numCars l draws

/-- The `while (numCars < 0)` shrink loop of `updateParticles`: remove cars
from the end (`Array.pop`; a pop on an empty array leaves it empty).  The
counter increases by exactly 1 per round towards 0, so the loop runs
`⌈-numCars⌉` times; that bound is passed as a structural counter (the guard
is still re-checked every round). -/
def shrinkGo : ℕ → ℚ → List CarParticle → List CarParticle
  | 0, _, l => l
  | k + 1, numCars, l =>
    if numCars < 0 then shrinkGo k (numCars + 1) l.dropLast
    else l

/-- The shrink loop of `updateParticles`, run to completion. -/
def shrinkLoop (numCars : ℚ) (l : List CarParticle) : List CarParticle :=
  shrinkGo (⌈-numCars⌉).toNat numCars l

/-- The per-frame movement pass of `updateParticles`: for each car run
`moveCar` then `setRotationMatrix`, threading the random stream. -/
def movePhase (st : CarVisualization) (fuel : ℕ) (elapsed : ℚ) :
    List CarParticle → List ℚ → Option (List CarParticle × List ℚ)
  | [], draws => some ([], draws)
  | car :: rest, draws =>
    match moveCar st fuel car elapsed draws with
    | none => none
    | some (car', d1) =>
      match movePhase st fuel elapsed rest d1 with
      | none => none
      | some (rest', d2) => some (setRotationMatrix car' :: rest', d2)

/-- Update the positions and velocities of all the particles based on the
amount of time that has passed since the last update (`updateParticles`):
early-out on an empty street table, reconcile the population against
`numCars` (spawn then shrink), then move every particle.  Returns the new
state, the returned particle array and the remaining draws. -/
def updateParticles (st : CarVisualization) (fuel : ℕ) (elapsedSeconds : ℚ)
    (draws : List ℚ) : Option (CarVisualization × List CarParticle × List ℚ) :=
  if st.streets.length = 0 then some (st, [], draws)
  else
    match spawnLoop st (st.numCars - (st.carParticles.length : ℚ))
        st.carParticles draws with
    | none => none
    | some (l1, numAfter, d1) =>
      let l2 := shrinkLoop numAfter l1
      match movePhase st fuel elapsedSeconds l2 d1 with
      | none => none
      | some (l3, d2) => some ({ st with carParticles := l3 }, l3, d2)

/-- Returns the maximum number of cars that can fit on the available streets
with a given packing ratio and a hard cap of `maxCars` (`computeMaxCars`). -/
def computeMaxCars (st : CarVisualization) (carSize packingRatio maxCars : ℚ) : ℚ :=
  let d := 1 / (carSize * carSpacingDefault * packingRatio)
  let carsThatCanFit := st.streets.foldl
    (fun acc street => acc + ((⌊street.totalDistance * d⌋ : ℤ) : ℚ) + 1) 0
  if maxCars < carsThatCanFit then maxCars else carsThatCanFit

/-- Returns a number representing a portion of cars based on density and the
number of allotted cars (`getNumberOfCars`); note the JavaScript `/` is
real division, so the result need not be an integer. -/
def getNumberOfCars (maxCars : ℚ) (density : Density) : ℚ :=
  if density = Density.Low then maxCars / 5
  else if density = Density.Medium then maxCars / 3
  else maxCars

/-- Changes the number of cars based on the density passed in and the packing
ratio and max number of cars specified in the constructor (`changeDensity`). -/
def changeDensity (st : CarVisualization) (density : Density) : CarVisualization :=
  { st with
    numCars := getNumberOfCars
      (computeMaxCars st st.carSize.2 st.packingRatio st.maxCars) density }

/-- Sets the size factor (`setSize`):
`carSize = (carSizeDefaultX * size, carSizeDefaultY * size)`. -/
def setSize (st : CarVisualization) (size : ℚ) : CarVisualization :=
  { st with carSize := (carSizeDefaultX * size, carSizeDefaultY * size) }

/-- Returns the current particle array (`getParticles`). -/
def getParticles (st : CarVisualization) : List CarParticle :=
  st.carParticles

/-- The particle-update choice of `CarDecorator.decorate`: while paused,
return `getParticles()` with no state change; otherwise run
`updateParticles`. -/
def frameParticles (pause : Bool) (st : CarVisualization) (fuel : ℕ)
    (elapsedSeconds : ℚ) (draws : List ℚ) :
    Option (CarVisualization × List CarParticle × List ℚ) :=
  if pause then some (st, getParticles st, draws)
  else updateParticles st fuel elapsedSeconds draws

/-- The entry-street choice exactly as the spec words it for respawn:
"the chosen street is determined by the cumulative `startStreetProbabilities`
aligned with `startStreetIndices` (the first entry whose cumulative
probability exceeds r)"; `-1` when no entry qualifies.  This definition
follows the spec's words (not the source) and is compared against the
source-derived respawn behaviour. -/
def specWeightedStart (probs : List ℚ) (indices : List ℤ) (r : ℚ) : ℤ :=
  match probs, indices with
  | [], _ => -1
  | _ :: _, [] => -1
  | p :: ps, o :: os => if r < p then o else specWeightedStart ps os r

/-- Remaining street length from segment `k` on: the sum of the segment
lengths not yet fully traversed. -/
def remainingFrom (street : Street) (k : ℕ) : ℚ :=
  (street.distance.drop k).sum

/-- Street for the boundary-draw scenario: one 100 m segment at speed limit
10, terminating into intersection 5. -/
def s1street : Street := ⟨[⟨0, 0, 0⟩, ⟨100, 0, 0⟩], [100], 100, 10, 5⟩

/-- Intersection 5 of the boundary-draw scenario: one outbound street, and
an inbound cumulative-probability sequence for street 0 that tops out at
`1/2 < 1`, so a draw of `9/10` lands in no bucket.  No synthetic paths are
defined, so `findPath` (modelled from the spec) always reports not-found. -/
def inter1 : Intersection := ⟨[0], [(0, [1 / 2])], [], false, fun _ _ => -1⟩

/-- State for the boundary-draw scenario. -/
def st1 : CarVisualization :=
  ⟨[], [s1street], [(5, inter1)], [0], [1], 1, 10, 9000, (1, 1), 1⟩

/-- Particle for the boundary-draw scenario: about to complete `s1street`. -/
def car1ex : CarParticle := ⟨95, 0, 0, 10, 0, 0, 95, 0, -1, 0, none, none⟩

/-- Street for the edge-exit scenario of C2: one 100 m segment, edge-sentinel
`inTo`, speed limit 10. -/
def s2street : Street := ⟨[⟨0, 0, 0⟩, ⟨100, 0, 0⟩], [100], 100, 10, -1⟩

/-- State for the edge-exit scenario of C2. -/
def st2 : CarVisualization :=
  ⟨[], [s2street], [], [0], [1], 1, 10, 9000, (1, 1), 1⟩

/-- Particle for the edge-exit scenario of C2: `segmentDist = 95`,
`speed = 10`. -/
def car2ex : CarParticle := ⟨95, 0, 0, 10, 0, 0, 95, 0, -1, 0, none, none⟩

/-- A one-segment unit street used to pad street tables. -/
def dummySt : Street := ⟨[⟨0, 0, 0⟩, ⟨1, 0, 0⟩], [1], 1, 1, -1⟩

/-- Synthetic intersection path whose own `inTo` is street index `0`. -/
def pathC3 : Street := ⟨[⟨0, 0, 0⟩, ⟨1, 0, 0⟩], [1], 1, 1, 0⟩

/-- Intersection 7 carrying `pathC3` under path id 3. -/
def interC3 : Intersection := ⟨[0], [], [(3, pathC3)], false, fun _ _ => -1⟩

/-- State for the C3 counterexample: four streets so that both street 0
(the path's `inTo`) and street 3 (the path id) are valid indices. -/
def st3 : CarVisualization :=
  ⟨[], [dummySt, dummySt, dummySt, dummySt], [(7, interC3)], [0], [1], 1, 10,
    9000, (1, 1), 1⟩

/-- Particle traversing intersection 7 on path id 3. -/
def car3ex : CarParticle := ⟨0, 0, 0, 1, 3, 0, 0, 0, 7, 0, none, none⟩

/-- Synthetic intersection path whose own `inTo` is street index `2`
(nonzero), for the amended C3 witness. -/
def pathC3b : Street := ⟨[⟨0, 0, 0⟩, ⟨1, 0, 0⟩], [1], 1, 1, 2⟩

/-- Intersection 8 carrying `pathC3b` under path id 3. -/
def interC3b : Intersection := ⟨[2], [], [(3, pathC3b)], false, fun _ _ => -1⟩

/-- State for the amended C3 witness. -/
def st3b : CarVisualization :=
  ⟨[], [dummySt, dummySt, dummySt, dummySt], [(8, interC3b)], [0], [1], 1, 10,
    9000, (1, 1), 1⟩

/-- Particle traversing intersection 8 on path id 3. -/
def car3bex : CarParticle := ⟨0, 0, 0, 1, 3, 0, 0, 0, 8, 0, none, none⟩

/-- First entry street for the C4 scenario. -/
def s4a : Street := ⟨[⟨0, 0, 0⟩, ⟨10, 0, 0⟩], [10], 10, 10, -1⟩

/-- Second entry street for the C4 scenario. -/
def s4b : Street := ⟨[⟨0, 5, 0⟩, ⟨10, 5, 0⟩], [10], 10, 10, -1⟩

/-- State for the C4 counterexample: two entry-eligible streets whose
cumulative probabilities `[1, 1]` put all weight on the first entry. -/
def st4 : CarVisualization :=
  ⟨[], [s4a, s4b], [], [0, 1], [1, 1], 1, 10, 9000, (1, 1), 1⟩

/-- Particle for the C4 counterexample: about to run off street 0's edge. -/
def car4ex : CarParticle := ⟨5, 0, 0, 10, 0, 0, 5, 0, -1, 0, none, none⟩

/-- A 20 m street: network capacity `⌊20/12.5⌋ + 1 = 2` at packing 10 and
unit car length. -/
def s5 : Street := ⟨[⟨0, 0, 0⟩, ⟨20, 0, 0⟩], [20], 20, 10, -1⟩

/-- State for the C5 counterexample (target count will be the fractional
`2/5` under Low density). -/
def st5 : CarVisualization := ⟨[], [s5], [], [0], [1], 0, 10, 9000, (1, 1), 1⟩

/-- State for the C5 witness: integer target count 2, empty population. -/
def st5b : CarVisualization := ⟨[], [s5], [], [0], [1], 2, 10, 9000, (1, 1), 1⟩

/-- The car spawned at `s5`'s origin by the C5 witness run (offset draw 0). -/
def car5spawn : CarParticle :=
  ⟨0, 0, 0, 0, 0, 0, 0, 0, -1, 0, some (20, 0), none⟩

/-- `car5spawn` after the zero-time move pass set its rotation matrix. -/
def car5moved : CarParticle :=
  ⟨0, 0, 0, 0, 0, 0, 0, 0, -1, 0, some (20, 0), some ⟨1, 0, 0, 0, 1, 0, 0, 0, 0⟩⟩

/-- Street for the C6 witness: one 10 m segment at speed limit 5. -/
def s6 : Street := ⟨[⟨0, 0, 0⟩, ⟨10, 0, 0⟩], [10], 10, 5, -1⟩

/-- Particle for the C6 witness: at rest at `s6`'s origin. -/
def car6ex : CarParticle := ⟨0, 0, 0, 0, 0, 0, 0, 0, -1, 0, none, none⟩

/-- The C6 witness output particle: accelerated to the limit 5 and moved 5 m
along `s6`'s single segment. -/
def car6out : CarParticle := ⟨5, 0, 0, 5, 0, 0, 5, 0, -1, 0, none, none⟩

/-- A 1000 m street for the C8 counterexample. -/
def s8 : Street := ⟨[⟨0, 0, 0⟩, ⟨1000, 0, 0⟩], [1000], 1000, 10, -1⟩

/-- State for the C8 counterexample: huge stale car size `(1000, 1000)`,
stored target 1 (the High target for that size). -/
def st8 : CarVisualization :=
  ⟨[], [s8], [], [0], [1], 1, 10, 9000, (1000, 1000), 1⟩

/-- A state with an empty street table, for the C10 witness. -/
def stEmpty : CarVisualization := ⟨[], [], [], [], [], 5, 10, 9000, (1, 1), 1⟩

/-- The respawned particle of the C2 witness run. -/
def car2re : CarParticle := ⟨0, 0, 0, 0, 0, 0, 0, 0, -1, 0, some (100, 0), none⟩

/-- The respawned particle of the C4 witness run. -/
def car4re : CarParticle := ⟨0, 5, 0, 0, 1, 0, 0, 0, -1, 0, some (10, 0), none⟩

/-- The state produced by the C5 witness run. -/
def st5bOut : CarVisualization :=
  ⟨[car5moved, car5moved], [s5], [], [0], [1], 2, 10, 9000, (1, 1), 1⟩

/-- `st5` after `changeDensity Low`: the fractional target `2/5`. -/
def stLow : CarVisualization := ⟨[], [s5], [], [0], [1], 2 / 5, 10, 9000, (1, 1), 1⟩

theorem setDirectionOnStreet_street (c : CarParticle) (s : Street) :
    (setDirectionOnStreet c s).street = c.street := rfl

theorem setDirectionOnStreet_intersection (c : CarParticle) (s : Street) :
    (setDirectionOnStreet c s).intersection = c.intersection := rfl

theorem setDirectionOnStreet_waiting (c : CarParticle) (s : Street) :
    (setDirectionOnStreet c s).waiting = c.waiting := rfl

theorem setDirectionOnStreet_speed (c : CarParticle) (s : Street) :
    (setDirectionOnStreet c s).speed = c.speed := rfl

theorem setDirectionOnStreet_segment (c : CarParticle) (s : Street) :
    (setDirectionOnStreet c s).segment = c.segment := rfl

theorem setDirectionOnStreet_segmentDist (c : CarParticle) (s : Street) :
    (setDirectionOnStreet c s).segmentDist = c.segmentDist := rfl

theorem setDirectionOnStreet_x (c : CarParticle) (s : Street) :
    (setDirectionOnStreet c s).x = c.x := rfl

theorem setDirectionOnStreet_y (c : CarParticle) (s : Street) :
    (setDirectionOnStreet c s).y = c.y := rfl

theorem setDirectionOnStreet_z (c : CarParticle) (s : Street) :
    (setDirectionOnStreet c s).z = c.z := rfl

theorem setDirectionOnStreet_type (c : CarParticle) (s : Street) :
    (setDirectionOnStreet c s).type = c.type := rfl

theorem setPositionOnStreet_street (c : CarParticle) (s : Street) :
    (setPositionOnStreet c s).street = c.street := rfl

theorem setPositionOnStreet_intersection (c : CarParticle) (s : Street) :
    (setPositionOnStreet c s).intersection = c.intersection := rfl

theorem setPositionOnStreet_waiting (c : CarParticle) (s : Street) :
    (setPositionOnStreet c s).waiting = c.waiting := rfl

theorem setPositionOnStreet_segment (c : CarParticle) (s : Street) :
    (setPositionOnStreet c s).segment = c.segment := rfl

theorem setPositionOnStreet_segmentDist (c : CarParticle) (s : Street) :
    (setPositionOnStreet c s).segmentDist = c.segmentDist := rfl

theorem setPositionOnStreet_speed (c : CarParticle) (s : Street) :
    (setPositionOnStreet c s).speed = c.speed := rfl

theorem advanceGo_eq (street : Street) :
    ∀ (k : ℕ) (c : CarParticle), advanceGo street k c =
      { c with
        segment := (advanceGo street k c).segment
        segmentDist := (advanceGo street k c).segmentDist } := by
  intro k
  induction k with
  | zero => intro c; rfl
  | succ k ih =>
    intro c
    show advanceGo street (k + 1) c = _
    unfold advanceGo
    split
    · rw [ih]
    · rfl

theorem advanceGo_speed (street : Street) (k : ℕ) (c : CarParticle) :
    (advanceGo street k c).speed = c.speed := by
  conv_lhs => rw [advanceGo_eq]

theorem advanceGo_street (street : Street) (k : ℕ) (c : CarParticle) :
    (advanceGo street k c).street = c.street := by
  conv_lhs => rw [advanceGo_eq]

theorem advanceGo_intersection (street : Street) (k : ℕ) (c : CarParticle) :
    (advanceGo street k c).intersection = c.intersection := by
  conv_lhs => rw [advanceGo_eq]

theorem advanceGo_waiting (street : Street) (k : ℕ) (c : CarParticle) :
    (advanceGo street k c).waiting = c.waiting := by
  conv_lhs => rw [advanceGo_eq]

theorem moveCarOnStreet_street (car : CarParticle) (street : Street) (e : ℚ) :
    (moveCarOnStreet car street e).1.street = car.street := by
  unfold moveCarOnStreet
  dsimp only
  split
  · simp only [setPositionOnStreet_street]
  · split
    · simp only [setDirectionOnStreet_street, setPositionOnStreet_street,
        advanceWhile, advanceGo_street]
    · simp only [setDirectionOnStreet_street, advanceWhile, advanceGo_street]

theorem moveCarOnStreet_intersection (car : CarParticle) (street : Street) (e : ℚ) :
    (moveCarOnStreet car street e).1.intersection = car.intersection := by
  unfold moveCarOnStreet
  dsimp only
  split
  · simp only [setPositionOnStreet_intersection]
  · split
    · simp only [setDirectionOnStreet_intersection, setPositionOnStreet_intersection,
        advanceWhile, advanceGo_intersection]
    · simp only [setDirectionOnStreet_intersection, advanceWhile, advanceGo_intersection]

theorem moveCarOnStreet_waiting (car : CarParticle) (street : Street) (e : ℚ) :
    (moveCarOnStreet car street e).1.waiting = car.waiting := by
  unfold moveCarOnStreet
  dsimp only
  split
  · simp only [setPositionOnStreet_waiting]
  · split
    · simp only [setDirectionOnStreet_waiting, setPositionOnStreet_waiting,
        advanceWhile, advanceGo_waiting]
    · simp only [setDirectionOnStreet_waiting, advanceWhile, advanceGo_waiting]

theorem foldl_add_one_sum (f : Street → ℚ) :
    ∀ (l : List Street) (a : ℚ),
      l.foldl (fun acc s => acc + f s + 1) a = a + (l.map (fun s => f s + 1)).sum := by
  intro l
  induction l with
  | nil => intro a; simp
  | cons x xs ih =>
    intro a
    simp only [List.foldl_cons, List.map_cons, List.sum_cons, ih]
    ring

theorem computeMaxCars_eq (st : CarVisualization) (c p m : ℚ) :
    computeMaxCars st c p m =
      min ((st.streets.map
        (fun s => ((⌊s.totalDistance / (c * carSpacingDefault * p)⌋ : ℤ) : ℚ) + 1)).sum) m := by
  unfold computeMaxCars
  dsimp only
  rw [foldl_add_one_sum
    (fun s => ((⌊s.totalDistance * (1 / (c * carSpacingDefault * p))⌋ : ℤ) : ℚ))]
  simp only [mul_one_div, zero_add]
  split
  · next h => rw [min_eq_right (le_of_lt h)]
  · next h => rw [min_eq_left (not_lt.mp h)]

theorem getNumberOfCars_low (m : ℚ) : getNumberOfCars m Density.Low = m / 5 := rfl

theorem getNumberOfCars_medium (m : ℚ) : getNumberOfCars m Density.Medium = m / 3 := rfl

theorem getNumberOfCars_high (m : ℚ) : getNumberOfCars m Density.High = m := rfl

/-- Claim C7: `changeDensity(density)` sets the target particle count to
`targetCount(density)` of the network capacity, where
`capacity = Σ_streets ⌊totalDistance / (carSize.y × spacingConstant × packingRatio)⌋ + 1`
capped at the configured hard maximum `maxCars`, and
`targetCount = capacity/5` for Low, `capacity/3` for Medium, `capacity` for
High. -/
theorem claim7_density_target_formula (st : CarVisualization) (d : Density) :
    (changeDensity st d).numCars =
      (let capacity := min
        ((st.streets.map (fun s =>
          ((⌊s.totalDistance / (st.carSize.2 * carSpacingDefault * st.packingRatio)⌋ : ℤ) : ℚ) + 1)).sum)
        st.maxCars
      match d with
      | Density.Low => capacity / 5
      | Density.Medium => capacity / 3
      | Density.High => capacity) := by
  cases d <;>
    simp [changeDensity, getNumberOfCars_low, getNumberOfCars_medium,
      getNumberOfCars_high, computeMaxCars_eq]

/-- Claim C8 (amended): `changeDensity` recomputes the stored target from the
given density and the now-current car size, while `setSize` mutates only the
car size — the stored target is NOT recomputed by `setSize` and only feeds
future `changeDensity` calls; neither call resizes the particle
collection. -/
theorem claim8_param_mutation_amended (st : CarVisualization) (d : Density) (s : ℚ) :
    (changeDensity st d).numCars =
      getNumberOfCars (computeMaxCars st st.carSize.2 st.packingRatio st.maxCars) d ∧
    (changeDensity st d).carParticles = st.carParticles ∧
    (changeDensity st d).carSize = st.carSize ∧
    (setSize st s).numCars = st.numCars ∧
    (setSize st s).carParticles = st.carParticles ∧
    (setSize st s).carSize = (carSizeDefaultX * s, carSizeDefaultY * s) :=
  ⟨rfl, rfl, rfl, rfl, rfl, rfl⟩

/-- Claim C8, counterexample to the claim as stated: after `setSize` the
stored target (1, computed for the stale car size 1000) is NOT recomputed
from the now-current car size — recomputation at the new size would give
`81/5`, `27` or `81` depending on density, none of which equals the stored
value. -/
theorem claim8_setSize_no_recompute_counterexample :
    (setSize st8 1).numCars = 1 ∧
    (setSize st8 1).carSize.2 = 1 ∧
    getNumberOfCars (computeMaxCars (setSize st8 1) (setSize st8 1).carSize.2
      (setSize st8 1).packingRatio (setSize st8 1).maxCars) Density.Low = 81 / 5 ∧
    getNumberOfCars (computeMaxCars (setSize st8 1) (setSize st8 1).carSize.2
      (setSize st8 1).packingRatio (setSize st8 1).maxCars) Density.Medium = 27 ∧
    getNumberOfCars (computeMaxCars (setSize st8 1) (setSize st8 1).carSize.2
      (setSize st8 1).packingRatio (setSize st8 1).maxCars) Density.High = 81 ∧
    (1 : ℚ) ≠ 81 / 5 ∧ (1 : ℚ) ≠ 27 ∧ (1 : ℚ) ≠ 81 := by
  refine ⟨rfl, ?_, ?_, ?_, ?_, by norm_num, by norm_num, by norm_num⟩
  all_goals
    norm_num [setSize, getNumberOfCars_low, getNumberOfCars_medium,
      getNumberOfCars_high, computeMaxCars, carSpacingDefault,
      carSizeDefaultX, carSizeDefaultY, st8, s8]

/-- Claim C9: while the pause flag is set, a frame update returns the
particle collection unchanged with no state mutation, so two consecutive
paused updates yield identical particle snapshots. -/
theorem claim9_pause_freezes (st : CarVisualization) (fuel₁ fuel₂ : ℕ)
    (e₁ e₂ : ℚ) (d₁ d₂ : List ℚ) :
    frameParticles true st fuel₁ e₁ d₁ = some (st, st.carParticles, d₁) ∧
    frameParticles true st fuel₂ e₂ d₂ = some (st, st.carParticles, d₂) :=
  ⟨rfl, rfl⟩

/-- Claim C10: if the network's street list is empty, `updateParticles`
returns the empty sequence and leaves all simulation state unchanged — no
spawn, no removal, no particle mutation, no random draw consumed. -/
theorem claim10_empty_network_noop (st : CarVisualization) (fuel : ℕ) (e : ℚ)
    (d : List ℚ) (h : st.streets = []) :
    updateParticles st fuel e d = some (st, [], d) := by
  simp [updateParticles, h]

/-- Witness for C10 at a concrete empty-street state. -/
theorem claim10_empty_network_noop_witness :
    updateParticles stEmpty 1 1 [] = some (stEmpty, [], []) :=
  claim10_empty_network_noop stEmpty 1 1 [] rfl

set_option maxHeartbeats 1600000 in
/-- Claim C1: at the concrete boundary-draw input (cumulative probabilities
`[1/2]` for the inbound street, draw `9/10` landing in no bucket) the
routing step does NOT fall back to a respawn: `getNextStreet` returns `-1`,
`findPath` reports not-found, the particle's street is set to `-1` and
`streets[-1]` is dereferenced — the update faults, for every fuel, so this
is a genuine fault and not fuel exhaustion. -/
theorem claim1_boundary_draw_faults :
    ∀ fuel : ℕ, moveCar st1 (fuel + 1) car1ex 1 [9 / 10] = none := by
  intro fuel
  norm_num [moveCar, moveCarLoop, moveCarOnStreet, speedToward, advanceWhile,
    advanceGo, setPositionOnStreet, setDirectionOnStreet, accelerationDefault,
    streetAt, atZ, lookupZ, getNextStreet, selectOut, draw, st1, s1street,
    car1ex, inter1]

set_option maxHeartbeats 1600000 in
/-- Claim C3, counterexample to the claim as stated: a synthetic path whose
own `inTo` is street index `0` does NOT transfer the particle to street `0`;
the JavaScript `|| car.street` treats the id `0` as falsy, so the particle's
street remains the path id `3`. -/
theorem claim3_zero_inTo_counterexample :
    pathC3.inTo = 0 ∧
    (intersectionToStreet st3 car3ex).map CarParticle.street = some 3 ∧
    (3 : ℤ) ≠ 0 := by
  refine ⟨rfl, ?_, by decide⟩
  norm_num [intersectionToStreet, lookupZ, streetAt, atZ, st3, car3ex, interC3,
    pathC3, dummySt, setDirectionOnStreet]

/-- Claim C3 (amended): on exhausting an intersection's synthetic path the
particle's street is set to the path's own `inTo` whenever that id is
nonzero, and kept at the synthetic path id when `inTo = 0` (JavaScript falsy
coalescing); in all cases segment and segmentDist reset to 0, intersection
resets to `-1`, and the heading is recomputed from the new street's
geometry. -/
theorem claim3_path_exit_amended (st : CarVisualization) (car : CarParticle)
    (inter : Intersection) (path s : Street)
    (hli : lookupZ st.intersections car.intersection = some inter)
    (hlp : lookupZ inter.inOutPaths car.street = some path)
    (hs : streetAt st.streets (if path.inTo = 0 then car.street else path.inTo) = some s) :
    intersectionToStreet st car =
      some (setDirectionOnStreet
        { car with
          street := if path.inTo = 0 then car.street else path.inTo
          segment := 0, segmentDist := 0, intersection := -1 } s) := by
  unfold intersectionToStreet
  simp only [hli, hlp, hs, Option.map_some']

/-- Witness for the amended C3 at a concrete path with nonzero `inTo`. -/
theorem claim3_path_exit_amended_witness :
    intersectionToStreet st3b car3bex =
      some (setDirectionOnStreet
        { car3bex with
          street := if pathC3b.inTo = 0 then car3bex.street else pathC3b.inTo
          segment := 0, segmentDist := 0, intersection := -1 } dummySt) :=
  claim3_path_exit_amended st3b car3bex interC3b pathC3b dummySt rfl rfl rfl

set_option maxHeartbeats 1600000 in
/-- Claim C4, counterexample to the claim as stated: a particle exiting the
network is respawned by `restartCar`, which picks the entry street uniformly
at random from `startStreetIndices` and never consults the cumulative
`startStreetProbabilities`.  Here the cumulative weights `[1, 1]` put all
weight on entry 0 (street 0 is the first entry whose cumulative probability
exceeds any draw in `[0,1)`), yet with the drawn value `1/2` the respawned
particle lands on street 1. -/
theorem claim4_respawn_not_weighted_counterexample :
    (moveCar st4 (0 + 1) car4ex 1 [1 / 2, 0]).map (fun r => r.1.street) = some 1 ∧
    specWeightedStart st4.startStreetProbabilities st4.startStreetIndices (1 / 2) = 0 ∧
    (1 : ℤ) ≠ 0 := by
  refine ⟨?_, ?_, by decide⟩
  · norm_num [moveCar, moveCarLoop, moveCarOnStreet, speedToward, advanceWhile,
      advanceGo, setPositionOnStreet, setDirectionOnStreet, accelerationDefault,
      streetAt, atZ, lookupZ, restartCar, draw, randomInteger, st4, s4a, s4b,
      car4ex]
  · norm_num [specWeightedStart, st4]

theorem restartCar_spec (st : CarVisualization) (car p : CarParticle)
    (u1 u2 : ℚ) (rest d2 : List ℚ)
    (h : restartCar st car (u1 :: u2 :: rest) = some (p, d2)) :
    d2 = rest ∧ p.speed = 0 ∧ p.segment = 0 ∧ p.segmentDist = 0 ∧
    p.waiting = 0 ∧ p.intersection = -1 ∧
    p.type = randomInteger 0 (st.numTypes - 1) u2 ∧
    atZ st.startStreetIndices
      (randomInteger 0 (st.startStreetIndices.length - 1) u1) = some p.street ∧
    ∃ s, streetAt st.streets p.street = some s ∧
      s.points.head? = some ⟨p.x, p.y, p.z⟩ := by
  unfold restartCar at h
  simp only [draw] at h
  rcases h1 : atZ st.startStreetIndices
      (randomInteger 0 (st.startStreetIndices.length - 1) u1) with _ | street
  · simp only [h1] at h; exact Option.noConfusion h
  · simp only [h1] at h
    rcases h2 : streetAt st.streets street with _ | s
    · simp only [h2] at h; exact Option.noConfusion h
    · simp only [h2] at h
      rcases h3 : s.points with _ | ⟨p0, ps⟩
      · simp only [h3] at h; exact Option.noConfusion h
      · simp only [h3] at h
        simp only [Option.some.injEq, Prod.mk.injEq] at h
        obtain ⟨hp, hd⟩ := h
        subst hp
        subst hd
        refine ⟨rfl, rfl, rfl, rfl, rfl, rfl, rfl, ?_, s, ?_, ?_⟩
        all_goals
          try simp only [setDirectionOnStreet_street, setDirectionOnStreet_x,
            setDirectionOnStreet_y, setDirectionOnStreet_z, h3, List.head?_cons]
        all_goals
          first
          | exact h1
          | exact h2

theorem claim2_edge_exit_core (st : CarVisualization) (fuel : ℕ)
    (car : CarParticle) (e : ℚ) (draws : List ℚ) (street : Street)
    (he : 0 < e) (hw : ¬ 0 < car.waiting) (hi : car.intersection = -1)
    (hs : streetAt st.streets car.street = some street)
    (ht : 0 ≤ (moveCarOnStreet
      (if car.speed = 0 then setDirectionOnStreet car street else car) street e).2)
    (hexit : street.inTo < 0 ∨
      ∃ i, lookupZ st.intersections street.inTo = some i ∧ i.streetsOut = []) :
    moveCar st (fuel + 1) car e draws =
      restartCar st (moveCarOnStreet
        (if car.speed = 0 then setDirectionOnStreet car street else car) street e).1
        draws := by
  set car2 := if car.speed = 0 then setDirectionOnStreet car street else car with hc2
  have hc2i : car2.intersection = -1 := by
    rw [hc2]; split
    · rw [setDirectionOnStreet_intersection]; exact hi
    · exact hi
  have hc2s : car2.street = car.street := by
    rw [hc2]; split
    · rw [setDirectionOnStreet_street]
    · rfl
  have hmi : (moveCarOnStreet car2 street e).1.intersection = -1 := by
    rw [moveCarOnStreet_intersection, hc2i]
  have hms : (moveCarOnStreet car2 street e).1.street = car.street := by
    rw [moveCarOnStreet_street, hc2s]
  unfold moveCar
  show moveCarLoop st (fuel + 1) car e e draws = _
  unfold moveCarLoop
  rw [if_neg (not_le.mpr he), if_neg hw]
  dsimp only
  rw [hi]
  simp only [reduceIte]
  rw [hs]
  dsimp only
  rw [← hc2, if_neg (not_lt.mpr ht), if_neg (by rw [hmi]; decide), hms, hs]
  dsimp only
  rcases hexit with hneg | ⟨i, hli, hempty⟩
  · rw [if_pos (Or.inl hneg)]
  · rw [hli]
    dsimp only
    rw [if_pos (Or.inr (by rw [hempty]; rfl))]

/-- Claim C2: a particle on a street whose `inTo` is the edge sentinel
(negative) or names an intersection with zero outbound streets, reaching the
street's end during `moveCar` (the per-particle step of `update`), is
respawned within the same call: the whole step equals `restartCar`, which
places it at a start street's origin with speed 0, segment 0, segmentDist 0,
waiting 0 and intersection −1. -/
theorem claim2_edge_exit_respawns (st : CarVisualization) (fuel : ℕ)
    (car : CarParticle) (e : ℚ) (u1 u2 : ℚ) (rest : List ℚ) (street : Street)
    (he : 0 < e) (hw : ¬ 0 < car.waiting) (hi : car.intersection = -1)
    (hs : streetAt st.streets car.street = some street)
    (ht : 0 ≤ (moveCarOnStreet
      (if car.speed = 0 then setDirectionOnStreet car street else car) street e).2)
    (hexit : street.inTo < 0 ∨
      ∃ i, lookupZ st.intersections street.inTo = some i ∧ i.streetsOut = []) :
    moveCar st (fuel + 1) car e (u1 :: u2 :: rest) =
      restartCar st (moveCarOnStreet
        (if car.speed = 0 then setDirectionOnStreet car street else car) street e).1
        (u1 :: u2 :: rest) ∧
    (∀ p d2,
      restartCar st (moveCarOnStreet
        (if car.speed = 0 then setDirectionOnStreet car street else car) street e).1
        (u1 :: u2 :: rest) = some (p, d2) →
      p.speed = 0 ∧ p.segment = 0 ∧ p.segmentDist = 0 ∧ p.waiting = 0 ∧
      p.intersection = -1 ∧
      atZ st.startStreetIndices
        (randomInteger 0 (st.startStreetIndices.length - 1) u1) = some p.street ∧
      ∃ s, streetAt st.streets p.street = some s ∧
        s.points.head? = some ⟨p.x, p.y, p.z⟩) := by
  refine ⟨claim2_edge_exit_core st fuel car e (u1 :: u2 :: rest) street
    he hw hi hs ht hexit, ?_⟩
  intro p d2 h
  obtain ⟨-, h1, h2, h3, h4, h5, -, h6, h7⟩ :=
    restartCar_spec st _ p u1 u2 rest d2 h
  exact ⟨h1, h2, h3, h4, h5, h6, h7⟩

/-- Witness for C2: the spec scenario — single one-segment street of length
100, edge-sentinel `inTo`, speed limit 10, particle at `segmentDist = 95`
with speed 10, update over 1 second (95 + 10 = 105 > 100): the step respawns
the particle at the start street's origin with speed 0. -/
theorem claim2_edge_exit_respawns_witness :
    moveCar st2 (0 + 1) car2ex 1 [0, 0] =
      restartCar st2 (moveCarOnStreet
        (if car2ex.speed = 0 then setDirectionOnStreet car2ex s2street else car2ex)
        s2street 1).1 [0, 0] ∧
    restartCar st2 (moveCarOnStreet
        (if car2ex.speed = 0 then setDirectionOnStreet car2ex s2street else car2ex)
        s2street 1).1 [0, 0] = some (car2re, []) ∧
    car2re.speed = 0 ∧ car2re.segment = 0 ∧ car2re.segmentDist = 0 ∧
    car2re.waiting = 0 ∧ car2re.intersection = -1 ∧ car2re.street = 0 ∧
    car2re.x = 0 ∧ car2re.y = 0 ∧ car2re.z = 0 := by
  refine ⟨(claim2_edge_exit_respawns st2 0 car2ex 1 0 0 [] s2street
      (by norm_num) (by norm_num [car2ex]) rfl rfl ?_ (Or.inl (by decide))).1,
    ?_, rfl, rfl, rfl, rfl, rfl, rfl, rfl, rfl, rfl⟩
  · norm_num [moveCarOnStreet, speedToward, advanceWhile, advanceGo,
      setPositionOnStreet, setDirectionOnStreet, accelerationDefault,
      car2ex, s2street]
  · norm_num [restartCar, draw, atZ, streetAt, randomInteger, moveCarOnStreet,
      speedToward, advanceWhile, advanceGo, setPositionOnStreet,
      setDirectionOnStreet, accelerationDefault, st2, s2street, car2ex, car2re]

/-- Claim C4 (amended): on network exit the respawn picks the entry street
uniformly at random from `startStreetIndices` — the cumulative
`startStreetProbabilities` are never consulted (the respawn result is
invariant under replacing them) — and the particle gets a fresh
uniform-random visual variant, position at the chosen street's origin,
speed 0, and recomputed heading. -/
theorem claim4_respawn_uniform_amended (st : CarVisualization)
    (car p : CarParticle) (u1 u2 : ℚ) (rest d2 : List ℚ)
    (h : restartCar st car (u1 :: u2 :: rest) = some (p, d2)) :
    (∀ probs, restartCar { st with startStreetProbabilities := probs } car
        (u1 :: u2 :: rest) = restartCar st car (u1 :: u2 :: rest)) ∧
    d2 = rest ∧
    atZ st.startStreetIndices
      (randomInteger 0 (st.startStreetIndices.length - 1) u1) = some p.street ∧
    p.type = randomInteger 0 (st.numTypes - 1) u2 ∧
    p.speed = 0 ∧ p.segment = 0 ∧ p.segmentDist = 0 ∧ p.waiting = 0 ∧
    p.intersection = -1 ∧
    ∃ s, streetAt st.streets p.street = some s ∧
      s.points.head? = some ⟨p.x, p.y, p.z⟩ := by
  obtain ⟨hd, h1, h2, h3, h4, h5, h6, h7, h8⟩ :=
    restartCar_spec st car p u1 u2 rest d2 h
  exact ⟨fun probs => rfl, hd, h7, h6, h1, h2, h3, h4, h5, h8⟩

/-- Witness for the amended C4: concrete respawn draw `1/2` over two entry
streets lands (uniformly) on entry index 1. -/
theorem claim4_respawn_uniform_amended_witness :
    (∀ probs, restartCar { st4 with startStreetProbabilities := probs } car4ex
        ((1 : ℚ) / 2 :: (0 : ℚ) :: []) = restartCar st4 car4ex ((1 : ℚ) / 2 :: (0 : ℚ) :: [])) ∧
    ([] : List ℚ) = [] ∧
    atZ st4.startStreetIndices
      (randomInteger 0 (st4.startStreetIndices.length - 1) (1 / 2)) = some car4re.street ∧
    car4re.type = randomInteger 0 (st4.numTypes - 1) 0 ∧
    car4re.speed = 0 ∧ car4re.segment = 0 ∧ car4re.segmentDist = 0 ∧
    car4re.waiting = 0 ∧ car4re.intersection = -1 ∧
    ∃ s, streetAt st4.streets car4re.street = some s ∧
      s.points.head? = some ⟨car4re.x, car4re.y, car4re.z⟩ :=
  claim4_respawn_uniform_amended st4 car4ex car4re (1 / 2) 0 [] []
    (by norm_num [restartCar, draw, atZ, streetAt, randomInteger,
      setDirectionOnStreet, st4, s4a, s4b, car4ex, car4re])

theorem remainingFrom_succ (street : Street) (k : ℕ)
    (h : k < street.distance.length) :
    remainingFrom street k = street.distance.getD k 0 + remainingFrom street (k + 1) := by
  unfold remainingFrom
  rw [List.drop_eq_getElem_cons h, List.sum_cons]
  simp [List.getD_eq_getElem, h]

theorem remainingFrom_length (street : Street) :
    remainingFrom street street.distance.length = 0 := by
  unfold remainingFrom
  simp

theorem speedToward_pos (speed limit e : ℚ) (h1 : 0 ≤ speed) (h2 : 0 < limit)
    (h3 : 0 < e) : 0 < speedToward speed limit e := by
  unfold speedToward accelerationDefault
  dsimp only
  split_ifs <;> linarith

theorem advanceGo_loop_spec (street : Street) :
    ∀ (k : ℕ) (c : CarParticle),
      c.segment ≤ street.distance.length →
      street.distance.length - c.segment ≤ k →
      c.segment ≤ (advanceGo street k c).segment ∧
      (advanceGo street k c).segment ≤ street.distance.length ∧
      (advanceGo street k c).segmentDist
          - remainingFrom street (advanceGo street k c).segment
        = c.segmentDist - remainingFrom street c.segment ∧
      ((advanceGo street k c).segment < street.distance.length →
        (advanceGo street k c).segmentDist
          < street.distance.getD (advanceGo street k c).segment 0) ∧
      (0 ≤ c.segmentDist → 0 ≤ (advanceGo street k c).segmentDist) := by
  intro k
  induction k with
  | zero =>
    intro c hle hfuel
    simp only [advanceGo]
    refine ⟨le_refl _, hle, by trivial, ?_, by intro h; exact h⟩
    intro hlt
    omega
  | succ k ih =>
    intro c hle hfuel
    simp only [advanceGo]
    split
    · next hg =>
      obtain ⟨hg1, hg2⟩ := hg
      obtain ⟨i1, i2, i3, i4, i5⟩ := ih
        { c with
          segmentDist := c.segmentDist - street.distance.getD c.segment 0
          segment := c.segment + 1 }
        (by show c.segment + 1 ≤ street.distance.length; omega)
        (by show street.distance.length - (c.segment + 1) ≤ k; omega)
      have i1' : c.segment + 1 ≤ (advanceGo street k
        { c with
          segmentDist := c.segmentDist - street.distance.getD c.segment 0
          segment := c.segment + 1 }).segment := i1
      have i3' : (advanceGo street k
          { c with
            segmentDist := c.segmentDist - street.distance.getD c.segment 0
            segment := c.segment + 1 }).segmentDist
          - remainingFrom street (advanceGo street k
            { c with
              segmentDist := c.segmentDist - street.distance.getD c.segment 0
              segment := c.segment + 1 }).segment
          = (c.segmentDist - street.distance.getD c.segment 0)
            - remainingFrom street (c.segment + 1) := i3
      refine ⟨by omega, i2, ?_, i4, ?_⟩
      · rw [i3', remainingFrom_succ street c.segment hg1]
        ring
      · intro h0
        exact i5 (by show 0 ≤ c.segmentDist - street.distance.getD c.segment 0; linarith)
    · next hg =>
      rw [not_and_or, not_le] at hg
      refine ⟨le_refl _, hle, by trivial, ?_, by intro h; exact h⟩
      intro hlt
      rcases hg with hg | hg
      · omega
      · exact hg

theorem advanceWhile_spec (street : Street) (c : CarParticle)
    (hle : c.segment ≤ street.distance.length) :
    c.segment ≤ (advanceWhile street c).segment ∧
    (advanceWhile street c).segment ≤ street.distance.length ∧
    (advanceWhile street c).segmentDist
        - remainingFrom street (advanceWhile street c).segment
      = c.segmentDist - remainingFrom street c.segment ∧
    ((advanceWhile street c).segment < street.distance.length →
      (advanceWhile street c).segmentDist
        < street.distance.getD (advanceWhile street c).segment 0) ∧
    (0 ≤ c.segmentDist → 0 ≤ (advanceWhile street c).segmentDist) := by
  unfold advanceWhile
  exact advanceGo_loop_spec street (street.distance.length - c.segment) c hle (le_refl _)

/-- Claim C6: for every particle with speed ≥ 0 on a street with positive
speed limit and every elapsed time > 0, `moveCarOnStreet` either returns the
negative sentinel with the particle still within the street (position
interpolated linearly on its current segment), or, when the street's
segments are exhausted, places the particle at the street's terminal point,
resets `segmentDist` to the last segment's length, updates the heading from
the last two points, and returns `leftover = overshoot ÷ speed ≥ 0` (the
overshoot being the distance advanced past the remaining street length). -/
theorem claim6_moveCarOnStreet_spec (car : CarParticle) (street : Street) (e : ℚ)
    (hsp : 0 ≤ car.speed) (hlim : 0 < street.speed) (he : 0 < e)
    (hseg : car.segment < street.distance.length)
    (hpts : street.points.length = street.distance.length + 1) :
    ∀ c' t, moveCarOnStreet car street e = (c', t) →
      (t < 0 ∧ c'.segment < street.distance.length ∧
        c'.x = (street.points.getD c'.segment ⟨0, 0, 0⟩).x
          + (c'.segmentDist / street.distance.getD c'.segment 0)
            * ((street.points.getD (c'.segment + 1) ⟨0, 0, 0⟩).x
              - (street.points.getD c'.segment ⟨0, 0, 0⟩).x) ∧
        c'.y = (street.points.getD c'.segment ⟨0, 0, 0⟩).y
          + (c'.segmentDist / street.distance.getD c'.segment 0)
            * ((street.points.getD (c'.segment + 1) ⟨0, 0, 0⟩).y
              - (street.points.getD c'.segment ⟨0, 0, 0⟩).y) ∧
        c'.z = (street.points.getD c'.segment ⟨0, 0, 0⟩).z
          + (c'.segmentDist / street.distance.getD c'.segment 0)
            * ((street.points.getD (c'.segment + 1) ⟨0, 0, 0⟩).z
              - (street.points.getD c'.segment ⟨0, 0, 0⟩).z)) ∨
      (0 ≤ t ∧ 0 < c'.speed ∧ c'.segment = street.distance.length ∧
        c'.x = (street.points.getD (street.points.length - 1) ⟨0, 0, 0⟩).x ∧
        c'.y = (street.points.getD (street.points.length - 1) ⟨0, 0, 0⟩).y ∧
        c'.z = (street.points.getD (street.points.length - 1) ⟨0, 0, 0⟩).z ∧
        c'.segmentDist = street.distance.getD (street.distance.length - 1) 0 ∧
        c'.direction = some
          ((street.points.getD (street.points.length - 1) ⟨0, 0, 0⟩).x
            - (street.points.getD (street.points.length - 2) ⟨0, 0, 0⟩).x,
          -((street.points.getD (street.points.length - 1) ⟨0, 0, 0⟩).y
            - (street.points.getD (street.points.length - 2) ⟨0, 0, 0⟩).y)) ∧
        t = (car.segmentDist + e * c'.speed - remainingFrom street car.segment)
          / c'.speed) := by
  intro c' t h
  unfold moveCarOnStreet at h
  dsimp only at h
  split at h
  · next hlt1 =>
    injection h with h1 h2
    subst h1
    subst h2
    exact Or.inl ⟨by norm_num, hseg, rfl, rfl, rfl⟩
  · next hge1 =>
    rw [not_lt] at hge1
    split at h
    · next hlt2 =>
      injection h with h1 h2
      subst h1
      subst h2
      exact Or.inl ⟨by norm_num, hlt2, rfl, rfl, rfl⟩
    · next hge2 =>
      injection h with h1 h2
      subst h1
      subst h2
      set c1 : CarParticle :=
        { x := car.x, y := car.y, z := car.z
          speed := speedToward car.speed street.speed e
          street := car.street, segment := car.segment + 1
          segmentDist := car.segmentDist + e * speedToward car.speed street.speed e
            - street.distance.getD car.segment 0
          waiting := car.waiting, intersection := car.intersection, type := car.type
          direction := car.direction, rotationMatrix := car.rotationMatrix } with hc1
      rw [not_lt] at hge2
      have hc1seg : c1.segment = car.segment + 1 := by rw [hc1]
      have hc1spd : c1.speed = speedToward car.speed street.speed e := by rw [hc1]
      have hc1sd : c1.segmentDist = car.segmentDist
          + e * speedToward car.speed street.speed e
          - street.distance.getD car.segment 0 := by rw [hc1]
      obtain ⟨w1, w2, w3, w4, w5⟩ := advanceWhile_spec street c1 (by omega)
      have hA : (advanceWhile street c1).segment = street.distance.length := by omega
      have hA0 : 0 ≤ (advanceWhile street c1).segmentDist := by
        refine w5 ?_
        rw [hc1sd]
        linarith [hge1]
      have hspeed : (advanceWhile street c1).speed
          = speedToward car.speed street.speed e := by
        rw [advanceWhile, advanceGo_speed, hc1spd]
      have hpos : 0 < speedToward car.speed street.speed e :=
        speedToward_pos _ _ _ hsp hlim he
      have hsd : (advanceWhile street c1).segmentDist
          = car.segmentDist + e * speedToward car.speed street.speed e
            - remainingFrom street car.segment := by
        have hw := w3
        rw [hA, remainingFrom_length, hc1sd, hc1seg] at hw
        have hr := remainingFrom_succ street car.segment hseg
        linarith
      have hlen : street.points.length - 1 = street.distance.length := by omega
      refine Or.inr ⟨?_, ?_, ?_, ?_, ?_, ?_, ?_, ?_, ?_⟩
      · rw [hspeed]
        exact div_nonneg hA0 hpos.le
      · show 0 < (advanceWhile street c1).speed
        rw [hspeed]
        exact hpos
      · show (advanceWhile street c1).segment = street.distance.length
        exact hA
      · show (street.points.getD (advanceWhile street c1).segment ⟨0, 0, 0⟩).x = _
        rw [hA, hlen]
      · show (street.points.getD (advanceWhile street c1).segment ⟨0, 0, 0⟩).y = _
        rw [hA, hlen]
      · show (street.points.getD (advanceWhile street c1).segment ⟨0, 0, 0⟩).z = _
        rw [hA, hlen]
      · show street.distance.getD ((advanceWhile street c1).segment - 1) 0 = _
        rw [hA]
      · unfold setDirectionOnStreet
        dsimp only
        rw [if_pos (by omega : street.points.length - 1
          ≤ (advanceWhile street c1).segment)]
      · show (advanceWhile street c1).segmentDist / (advanceWhile street c1).speed = _
        rw [hspeed, hsd]
        simp only [setDirectionOnStreet_speed]

/-- Witness for C6: a particle at rest at the origin of a 10 m street with
speed limit 5, advanced 1 s: it accelerates to the limit, moves 5 m, stays
on the segment and gets the interpolated position with the `-1` sentinel. -/
theorem claim6_moveCarOnStreet_spec_witness :
    ((-1 : ℚ) < 0 ∧ car6out.segment < s6.distance.length ∧
      car6out.x = (s6.points.getD car6out.segment ⟨0, 0, 0⟩).x
        + (car6out.segmentDist / s6.distance.getD car6out.segment 0)
          * ((s6.points.getD (car6out.segment + 1) ⟨0, 0, 0⟩).x
            - (s6.points.getD car6out.segment ⟨0, 0, 0⟩).x) ∧
      car6out.y = (s6.points.getD car6out.segment ⟨0, 0, 0⟩).y
        + (car6out.segmentDist / s6.distance.getD car6out.segment 0)
          * ((s6.points.getD (car6out.segment + 1) ⟨0, 0, 0⟩).y
            - (s6.points.getD car6out.segment ⟨0, 0, 0⟩).y) ∧
      car6out.z = (s6.points.getD car6out.segment ⟨0, 0, 0⟩).z
        + (car6out.segmentDist / s6.distance.getD car6out.segment 0)
          * ((s6.points.getD (car6out.segment + 1) ⟨0, 0, 0⟩).z
            - (s6.points.getD car6out.segment ⟨0, 0, 0⟩).z)) ∨
    (0 ≤ (-1 : ℚ) ∧ 0 < car6out.speed ∧ car6out.segment = s6.distance.length ∧
      car6out.x = (s6.points.getD (s6.points.length - 1) ⟨0, 0, 0⟩).x ∧
      car6out.y = (s6.points.getD (s6.points.length - 1) ⟨0, 0, 0⟩).y ∧
      car6out.z = (s6.points.getD (s6.points.length - 1) ⟨0, 0, 0⟩).z ∧
      car6out.segmentDist = s6.distance.getD (s6.distance.length - 1) 0 ∧
      car6out.direction = some
        ((s6.points.getD (s6.points.length - 1) ⟨0, 0, 0⟩).x
          - (s6.points.getD (s6.points.length - 2) ⟨0, 0, 0⟩).x,
        -((s6.points.getD (s6.points.length - 1) ⟨0, 0, 0⟩).y
          - (s6.points.getD (s6.points.length - 2) ⟨0, 0, 0⟩).y)) ∧
      (-1 : ℚ) = (car6ex.segmentDist + 1 * car6out.speed - remainingFrom s6 car6ex.segment)
        / car6out.speed) :=
  claim6_moveCarOnStreet_spec car6ex s6 1 (by norm_num [car6ex]) (by norm_num [s6])
    (by norm_num) (by norm_num [car6ex, s6]) (by norm_num [s6]) car6out (-1)
    (by norm_num [moveCarOnStreet, speedToward, advanceWhile, advanceGo,
      setPositionOnStreet, setDirectionOnStreet, accelerationDefault,
      car6ex, s6, car6out])

theorem spawnGo_spec (st : CarVisualization) :
    ∀ (k : ℕ) (q : ℚ) (l : List CarParticle) (d : List ℚ),
      (⌈q⌉).toNat ≤ k →
      ∀ (l1 : List CarParticle) (n1 : ℚ) (d1 : List ℚ),
        spawnGo st k q l d = some (l1, n1, d1) →
        l1.length = l.length + (⌈q⌉).toNat ∧ n1 = q - (((⌈q⌉).toNat : ℕ) : ℚ) := by
  intro k
  induction k with
  | zero =>
    intro q l d hk l1 n1 d1 h
    simp only [spawnGo, Option.some.injEq, Prod.mk.injEq] at h
    obtain ⟨h1, h2, h3⟩ := h
    subst h1
    subst h2
    have h0 : (⌈q⌉).toNat = 0 := by omega
    rw [h0]
    norm_num
  | succ k ih =>
    intro q l d hk l1 n1 d1 h
    simp only [spawnGo] at h
    split at h
    · next hq =>
      have hq1 : (1 : ℤ) ≤ ⌈q⌉ := Int.one_le_ceil_iff.mpr hq
      have hc : ⌈q - 1⌉ = ⌈q⌉ - 1 := by exact_mod_cast Int.ceil_sub_int q 1
      rcases hstr : streetAt st.streets
          (randomInteger 0 (st.streets.length - 1) (draw d).1) with _ | str
      · simp only [hstr] at h
        exact Option.noConfusion h
      · simp only [hstr] at h
        rcases hemit : emitCar st
            (some (randomInteger 0 (st.streets.length - 1) (draw d).1))
            (some (randomInteger 0 (str.distance.length - 1) (draw (draw d).2).1))
            (some (randomFloat 0
              (str.distance.getD
                (randomInteger 0 (str.distance.length - 1) (draw (draw d).2).1).toNat 0)
              (draw (draw (draw d).2).2).1))
            (draw (draw (draw d).2).2).2 with _ | ⟨car, d4⟩
        · simp only [hemit] at h
          exact Option.noConfusion h
        · simp only [hemit] at h
          obtain ⟨ih1, ih2⟩ := ih (q - 1) (l ++ [car]) d4 (by omega) l1 n1 d1 h
          have hn1 : ((⌈q⌉).toNat : ℤ) = ⌈q⌉ := Int.toNat_of_nonneg (by omega)
          have hn2 : ((⌈q - 1⌉).toNat : ℤ) = ⌈q - 1⌉ := Int.toNat_of_nonneg (by omega)
          constructor
          · rw [ih1]
            simp only [List.length_append, List.length_cons, List.length_nil]
            omega
          · rw [ih2]
            have hcast : (((⌈q - 1⌉).toNat : ℕ) : ℚ) = (((⌈q⌉).toNat : ℕ) : ℚ) - 1 := by
              have : ((((⌈q - 1⌉).toNat : ℕ) : ℤ) : ℚ)
                  = ((((⌈q⌉).toNat : ℕ) : ℤ) : ℚ) - 1 := by
                rw [hn1, hn2, hc]
                push_cast
                ring
              exact_mod_cast this
            rw [hcast]
            ring
    · next hq =>
      simp only [Option.some.injEq, Prod.mk.injEq] at h
      obtain ⟨h1, h2, h3⟩ := h
      subst h1
      subst h2
      have h0 : (⌈q⌉).toNat = 0 := by
        have : ⌈q⌉ ≤ 0 := Int.ceil_le.mpr (by push_cast; linarith [not_lt.mp hq])
        omega
      rw [h0]
      norm_num

theorem shrinkGo_length :
    ∀ (k : ℕ) (q : ℚ) (l : List CarParticle),
      (⌈-q⌉).toNat ≤ k →
      (shrinkGo k q l).length = l.length - (⌈-q⌉).toNat := by
  intro k
  induction k with
  | zero =>
    intro q l hk
    simp only [shrinkGo]
    omega
  | succ k ih =>
    intro q l hk
    simp only [shrinkGo]
    split
    · next hq =>
      have hq1 : (1 : ℤ) ≤ ⌈-q⌉ := Int.one_le_ceil_iff.mpr (by linarith)
      have hc : ⌈-(q + 1)⌉ = ⌈-q⌉ - 1 := by
        rw [show -(q + 1) = -q - ((1 : ℤ) : ℚ) by push_cast; ring]
        exact Int.ceil_sub_int (-q) 1
      rw [ih (q + 1) l.dropLast (by omega)]
      rw [List.length_dropLast]
      omega
    · next hq =>
      have h0 : (⌈-q⌉).toNat = 0 := by
        have : ⌈-q⌉ ≤ 0 := Int.ceil_le.mpr (by push_cast; linarith [not_lt.mp hq])
        omega
      omega

theorem movePhase_length (st : CarVisualization) (fuel : ℕ) (e : ℚ) :
    ∀ (l : List CarParticle) (d : List ℚ) (l1 : List CarParticle) (d1 : List ℚ),
      movePhase st fuel e l d = some (l1, d1) → l1.length = l.length := by
  intro l
  induction l with
  | nil =>
    intro d l1 d1 h
    simp only [movePhase, Option.some.injEq, Prod.mk.injEq] at h
    rw [← h.1]
  | cons c cs ih =>
    intro d l1 d1 h
    simp only [movePhase] at h
    rcases hm : moveCar st fuel c e d with _ | ⟨c2, d2⟩
    · simp only [hm] at h
      exact Option.noConfusion h
    · simp only [hm] at h
      rcases hr : movePhase st fuel e cs d2 with _ | ⟨cs2, d3⟩
      · simp only [hr] at h
        exact Option.noConfusion h
      · simp only [hr, Option.some.injEq, Prod.mk.injEq] at h
        obtain ⟨h1, h2⟩ := h
        rw [← h1]
        simp only [List.length_cons]
        rw [ih d2 cs2 d3 hr]

theorem reconcile_count (N : ℚ) (L : ℕ) :
    (L + (⌈N - (L : ℚ)⌉).toNat) -
        (⌈-((N - (L : ℚ)) - (((⌈N - (L : ℚ)⌉).toNat : ℕ) : ℚ))⌉).toNat
      = (⌊N⌋).toNat := by
  set Δ := N - (L : ℚ) with hΔ
  have hfloor : ⌊N⌋ = L + ⌊Δ⌋ := by
    have hN : N = ((L : ℤ) : ℚ) + Δ := by push_cast; ring
    rw [hN, Int.floor_int_add]
  rcases le_or_lt ⌈Δ⌉ 0 with hk | hk
  · have h0 : (⌈Δ⌉).toNat = 0 := by omega
    rw [h0]
    have hceil : ⌈-(Δ - ((0 : ℕ) : ℚ))⌉ = -⌊Δ⌋ := by
      push_cast
      rw [sub_zero, Int.ceil_neg]
    rw [hceil]
    have hfl0 : ⌊Δ⌋ ≤ 0 := by
      have : Δ ≤ 0 := by
        have := Int.ceil_le.mp hk
        push_cast at this
        linarith
      exact Int.floor_nonpos this
    omega
  · have hkton : (((⌈Δ⌉).toNat : ℕ) : ℤ) = ⌈Δ⌉ := Int.toNat_of_nonneg (le_of_lt hk)
    have hle : Δ ≤ ((⌈Δ⌉ : ℤ) : ℚ) := Int.le_ceil Δ
    have hgt : ((⌈Δ⌉ : ℤ) : ℚ) < Δ + 1 := Int.ceil_lt_add_one Δ
    have htq : (((⌈Δ⌉).toNat : ℕ) : ℚ) = ((⌈Δ⌉ : ℤ) : ℚ) := by exact_mod_cast hkton
    rcases eq_or_lt_of_le hle with heq | hlt
    · have hc0 : ⌈-(Δ - (((⌈Δ⌉).toNat : ℕ) : ℚ))⌉ = 0 := by
        rw [htq, ← heq]
        simp
      have hfl : ⌊Δ⌋ = ⌈Δ⌉ := by
        conv_lhs => rw [heq]
        exact Int.floor_intCast _
      rw [hc0]
      omega
    · have hc1 : ⌈-(Δ - (((⌈Δ⌉).toNat : ℕ) : ℚ))⌉ = 1 := by
        rw [htq]
        have hpos : (0 : ℚ) < -(Δ - ((⌈Δ⌉ : ℤ) : ℚ)) := by linarith
        have hle1 : -(Δ - ((⌈Δ⌉ : ℤ) : ℚ)) ≤ 1 := by linarith
        have ha : 0 < ⌈-(Δ - ((⌈Δ⌉ : ℤ) : ℚ))⌉ := Int.ceil_pos.mpr hpos
        have hb : ⌈-(Δ - ((⌈Δ⌉ : ℤ) : ℚ))⌉ ≤ 1 := Int.ceil_le.mpr (by push_cast; linarith)
        omega
      have hfl : ⌊Δ⌋ = ⌈Δ⌉ - 1 := by
        rw [Int.floor_eq_iff]
        constructor
        · push_cast
          linarith
        · push_cast
          linarith
      rw [hc1]
      omega

theorem updateParticles_length (st : CarVisualization) (fuel : ℕ) (e : ℚ)
    (draws : List ℚ) (st' : CarVisualization) (ps : List CarParticle)
    (d' : List ℚ) (hne : st.streets ≠ [])
    (h : updateParticles st fuel e draws = some (st', ps, d')) :
    ps.length = (⌊st.numCars⌋).toNat ∧ st'.carParticles = ps ∧
    st'.numCars = st.numCars ∧ st'.streets = st.streets := by
  unfold updateParticles at h
  rw [if_neg (by simpa [List.length_eq_zero] using hne)] at h
  rcases hsp : spawnLoop st (st.numCars - (st.carParticles.length : ℚ))
      st.carParticles draws with _ | ⟨l1, n1, d1⟩
  · simp only [hsp] at h
    exact Option.noConfusion h
  · simp only [hsp] at h
    rcases hmp : movePhase st fuel e (shrinkLoop n1 l1) d1 with _ | ⟨l3, d2⟩
    · simp only [hmp] at h
      exact Option.noConfusion h
    · simp only [hmp, Option.some.injEq, Prod.mk.injEq] at h
      obtain ⟨h1, h2, h3⟩ := h
      subst h1
      subst h2
      obtain ⟨hl1, hn1⟩ := spawnGo_spec st ((⌈st.numCars - (st.carParticles.length : ℚ)⌉).toNat)
        (st.numCars - (st.carParticles.length : ℚ)) st.carParticles draws
        (le_refl _) l1 n1 d1 hsp
      have hl2 : (shrinkLoop n1 l1).length = l1.length - (⌈-n1⌉).toNat :=
        shrinkGo_length ((⌈-n1⌉).toNat) n1 l1 (le_refl _)
      have hl3 : l3.length = (shrinkLoop n1 l1).length :=
        movePhase_length st fuel e (shrinkLoop n1 l1) d1 l3 d2 hmp
      refine ⟨?_, rfl, rfl, rfl⟩
      rw [hl3, hl2, hl1, hn1]
      exact reconcile_count st.numCars st.carParticles.length

theorem spawnGo_prefix (st : CarVisualization) :
    ∀ (k : ℕ) (q : ℚ) (l : List CarParticle) (d : List ℚ)
      (l1 : List CarParticle) (n1 : ℚ) (d1 : List ℚ),
      spawnGo st k q l d = some (l1, n1, d1) → ∃ tail, l1 = l ++ tail := by
  intro k
  induction k with
  | zero =>
    intro q l d l1 n1 d1 h
    simp only [spawnGo, Option.some.injEq, Prod.mk.injEq] at h
    exact ⟨[], by rw [← h.1, List.append_nil]⟩
  | succ k ih =>
    intro q l d l1 n1 d1 h
    simp only [spawnGo] at h
    split at h
    · rcases hstr : streetAt st.streets
          (randomInteger 0 (st.streets.length - 1) (draw d).1) with _ | str
      · simp only [hstr] at h
        exact Option.noConfusion h
      · simp only [hstr] at h
        rcases hemit : emitCar st
            (some (randomInteger 0 (st.streets.length - 1) (draw d).1))
            (some (randomInteger 0 (str.distance.length - 1) (draw (draw d).2).1))
            (some (randomFloat 0
              (str.distance.getD
                (randomInteger 0 (str.distance.length - 1) (draw (draw d).2).1).toNat 0)
              (draw (draw (draw d).2).2).1))
            (draw (draw (draw d).2).2).2 with _ | ⟨car, d4⟩
        · simp only [hemit] at h
          exact Option.noConfusion h
        · simp only [hemit] at h
          obtain ⟨tail, htail⟩ := ih (q - 1) (l ++ [car]) d4 l1 n1 d1 h
          exact ⟨car :: tail, by rw [htail, List.append_assoc]; rfl⟩
    · simp only [Option.some.injEq, Prod.mk.injEq] at h
      exact ⟨[], by rw [← h.1, List.append_nil]⟩

theorem shrinkGo_prefix :
    ∀ (k : ℕ) (q : ℚ) (l : List CarParticle),
      ∃ m, shrinkGo k q l = l.take m := by
  intro k
  induction k with
  | zero =>
    intro q l
    exact ⟨l.length, by simp [shrinkGo]⟩
  | succ k ih =>
    intro q l
    simp only [shrinkGo]
    split
    · obtain ⟨m, hm⟩ := ih (q + 1) l.dropLast
      refine ⟨min m (l.length - 1), ?_⟩
      rw [hm, List.dropLast_eq_take, List.take_take]
    · exact ⟨l.length, by simp⟩

/-- Claim C5 (amended): for a non-empty street network, after
`updateParticles` returns, the number of active particles equals
`⌊targetCount⌋` — the floor of the most recently computed target (the spawn
loop overshoots a fractional target by one and the shrink loop immediately
pops the overshoot; for integer targets this is exact equality).  Growth
only appends spawned particles, shrinkage only removes from the end of the
collection, and reconciliation is idempotent: a further update leaves the
count unchanged. -/
theorem claim5_count_floor_amended (st : CarVisualization) (fuel : ℕ) (e : ℚ)
    (draws : List ℚ) (st' : CarVisualization) (ps : List CarParticle)
    (d' : List ℚ) (hne : st.streets ≠ [])
    (h : updateParticles st fuel e draws = some (st', ps, d')) :
    ps.length = (⌊st.numCars⌋).toNat ∧ st'.carParticles = ps ∧
    st'.numCars = st.numCars ∧ st'.streets = st.streets ∧
    (∀ q l dr l1 n1 dr1, spawnLoop st q l dr = some (l1, n1, dr1) →
      ∃ spawned, l1 = l ++ spawned) ∧
    (∀ q l, ∃ m, shrinkLoop q l = List.take m l) ∧
    (∀ fuel₂ e₂ draws₂ st'' ps₂ d₂,
      updateParticles st' fuel₂ e₂ draws₂ = some (st'', ps₂, d₂) →
      ps₂.length = ps.length) := by
  obtain ⟨h1, h2, h3, h4⟩ := updateParticles_length st fuel e draws st' ps d' hne h
  refine ⟨h1, h2, h3, h4, ?_, ?_, ?_⟩
  · intro q l dr l1 n1 dr1 hsp
    exact spawnGo_prefix st ((⌈q⌉).toNat) q l dr l1 n1 dr1 hsp
  · intro q l
    exact shrinkGo_prefix ((⌈-q⌉).toNat) q l
  · intro fuel₂ e₂ draws₂ st'' ps₂ d₂ h₂
    obtain ⟨g1, -, -, -⟩ := updateParticles_length st' fuel₂ e₂ draws₂ st'' ps₂ d₂
      (by rw [h4]; exact hne) h₂
    rw [g1, h3, h1]

theorem ceil_two_fifths : (⌈(2 : ℚ) / 5⌉ : ℤ) = 1 := by
  rw [Int.ceil_eq_iff]
  norm_num

theorem ceil_three_fifths : (⌈(3 : ℚ) / 5⌉ : ℤ) = 1 := by
  rw [Int.ceil_eq_iff]
  norm_num

theorem changeDensity_st5_low_eq : changeDensity st5 Density.Low = stLow := by
  simp only [changeDensity, getNumberOfCars_low, computeMaxCars, carSpacingDefault,
    st5, s5, stLow, CarVisualization.mk.injEq]
  norm_num

theorem spawnGo_stLow_eval : spawnGo stLow 1 ((2 : ℚ) / 5) [] [0, 0, 0, 0]
    = some ([car5spawn], (2 : ℚ) / 5 - 1, []) := by
  norm_num [spawnGo, draw, atZ, streetAt, randomInteger, randomFloat, emitCar,
    setPositionOnStreet, setDirectionOnStreet, stLow, s5, car5spawn]

theorem spawnLoop_stLow_eval : spawnLoop stLow ((2 : ℚ) / 5) [] [0, 0, 0, 0]
    = some ([car5spawn], (2 : ℚ) / 5 - 1, []) := by
  unfold spawnLoop
  rw [show ((⌈(2 : ℚ) / 5⌉).toNat) = 1 by rw [ceil_two_fifths]; rfl]
  exact spawnGo_stLow_eval

theorem shrinkLoop_stLow_eval : shrinkLoop ((2 : ℚ) / 5 - 1) [car5spawn] = [] := by
  unfold shrinkLoop
  rw [show ((⌈-((2 : ℚ) / 5 - 1)⌉).toNat) = 1 by
    rw [show -((2 : ℚ) / 5 - 1) = 3 / 5 by ring, ceil_three_fifths]; rfl]
  norm_num [shrinkGo]

theorem updateParticles_stLow_eval :
    updateParticles stLow (0 + 1) 0 [0, 0, 0, 0] = some (stLow, [], []) := by
  have hp1 : stLow.carParticles = [] := rfl
  have hp2 : stLow.numCars = 2 / 5 := rfl
  have hp3 : stLow.streets = [s5] := rfl
  unfold updateParticles
  rw [hp1, hp2, hp3]
  rw [if_neg (by norm_num)]
  rw [show (2 : ℚ) / 5 - ((List.length ([] : List CarParticle) : ℕ) : ℚ) = (2 : ℚ) / 5
    by norm_num]
  rw [spawnLoop_stLow_eval]
  dsimp only
  rw [shrinkLoop_stLow_eval]
  simp only [movePhase]
  rfl

/-- Claim C5, counterexample to the claim as stated: with one 20 m street the
capacity is 2 and Low density stores the fractional target `2/5`; an update
from an empty population spawns `⌈2/5⌉ = 1` particle and the shrink loop
immediately pops it, so the update returns 0 particles — the count never
equals the stored target `2/5`. -/
theorem claim5_count_counterexample :
    (changeDensity st5 Density.Low).numCars = 2 / 5 ∧
    (updateParticles (changeDensity st5 Density.Low) (0 + 1) 0 [0, 0, 0, 0]).map
      (fun r => ((r.2.1.length : ℕ) : ℚ)) = some 0 ∧
    (0 : ℚ) ≠ 2 / 5 := by
  refine ⟨?_, ?_, by norm_num⟩
  · rw [changeDensity_st5_low_eq]
    rfl
  · rw [changeDensity_st5_low_eq, updateParticles_stLow_eval]
    rfl

theorem ratSqrt_400 : ratSqrt 400 = some 20 := by
  unfold ratSqrt
  rw [show ((400 : ℚ)).num = 400 from rfl, show ((400 : ℚ)).den = 1 from rfl]
  rw [show ((400 : ℤ)).toNat = 400 from rfl]
  rw [show Nat.sqrt 400 = 20 from by
    rw [show (400 : ℕ) = 20 * 20 from rfl]; exact Nat.sqrt_eq 20]
  rw [show Nat.sqrt 1 = 1 from Nat.sqrt_one]
  norm_num

theorem normalize2_unit : normalize2 (20, 0) = some (1, 0) := by
  unfold normalize2
  rw [show ((20 : ℚ), (0 : ℚ)).1 * ((20 : ℚ), (0 : ℚ)).1
    + ((20 : ℚ), (0 : ℚ)).2 * ((20 : ℚ), (0 : ℚ)).2 = 400 by norm_num]
  rw [ratSqrt_400]
  norm_num

theorem setRotationMatrix_car5 : setRotationMatrix car5spawn = car5moved := by
  unfold setRotationMatrix
  rw [show car5spawn.direction = some (20, 0) from rfl]
  simp only [normalize2_unit]
  simp only [car5spawn, car5moved, CarParticle.mk.injEq, Matrix3.mk.injEq]
  norm_num

theorem moveCar_car5_zero : moveCar st5b (0 + 1) car5spawn 0 [] = some (car5spawn, []) := by
  unfold moveCar
  simp only [moveCarLoop]
  norm_num

theorem movePhase_st5b_eval : movePhase st5b (0 + 1) 0 [car5spawn, car5spawn] []
    = some ([car5moved, car5moved], []) := by
  simp only [movePhase, moveCar_car5_zero, setRotationMatrix_car5]

theorem spawnGo_st5b_eval : spawnGo st5b 2 (2 : ℚ) [] [0, 0, 0, 0, 0, 0, 0, 0]
    = some ([car5spawn, car5spawn], 0, []) := by
  norm_num [spawnGo, draw, atZ, streetAt, randomInteger, randomFloat, emitCar,
    setPositionOnStreet, setDirectionOnStreet, st5b, s5, car5spawn]

theorem spawnLoop_st5b_eval :
    spawnLoop st5b ((2 : ℚ) - ((List.length ([] : List CarParticle) : ℕ) : ℚ)) []
      [0, 0, 0, 0, 0, 0, 0, 0] = some ([car5spawn, car5spawn], 0, []) := by
  rw [show (2 : ℚ) - ((List.length ([] : List CarParticle) : ℕ) : ℚ) = 2 by norm_num]
  unfold spawnLoop
  rw [show ((⌈(2 : ℚ)⌉).toNat) = 2 from by
    rw [show (⌈(2 : ℚ)⌉ : ℤ) = 2 from by norm_num [Int.ceil_ofNat]]
    rfl]
  exact spawnGo_st5b_eval

theorem updateParticles_st5b_eval :
    updateParticles st5b (0 + 1) 0 [0, 0, 0, 0, 0, 0, 0, 0]
      = some (st5bOut, [car5moved, car5moved], []) := by
  have hp1 : st5b.carParticles = [] := rfl
  have hp2 : st5b.numCars = 2 := rfl
  have hp3 : st5b.streets = [s5] := rfl
  unfold updateParticles
  rw [hp1, hp2, hp3]
  rw [if_neg (by norm_num)]
  rw [spawnLoop_st5b_eval]
  dsimp only
  rw [show shrinkLoop (0 : ℚ) [car5spawn, car5spawn] = [car5spawn, car5spawn] from by
    unfold shrinkLoop
    rw [show ((⌈-(0 : ℚ)⌉).toNat) = 0 from by norm_num]
    rfl]
  rw [movePhase_st5b_eval]
  rfl

/-- Witness for the amended C5: an integer target 2 over one street, update
from an empty population — the returned collection has exactly
`⌊targetCount⌋ = 2` particles. -/
theorem claim5_count_floor_amended_witness :
    ([car5moved, car5moved] : List CarParticle).length = (⌊st5b.numCars⌋).toNat :=
  (claim5_count_floor_amended st5b (0 + 1) 0 [0, 0, 0, 0, 0, 0, 0, 0] st5bOut
    [car5moved, car5moved] [] (by simp [st5b]) updateParticles_st5b_eval).1

end CarSim
